import Mathlib

/-!
Shallow embedding of the alphintra_bot trading service and wallet service.

Prices and quantities are modelled as exact rationals (`ℚ`); Python `None`
becomes `Option`; Python truthiness of an optional number (`None` and `0`
are falsy) is modelled explicitly.  Each definition mirrors one function of
the source:
* `partial_fill`, `fill_order_update`, `open_position`, `close_trade`,
  `close_position`, `cancel_order` — `trading-service/trading_manager.py`
* `execute_signal_gate`, `should_execute` — `trading-service/signal_processor.py`
* `monitor_position`, `monitor_update` — `TradingBot._monitor_positions` in
  `trading-service/bot.py`
* `bollinger_levels` — `strategies/marketplace/bollinger_breakout.py`
* `normalize_environment` — `wallet-service/main.py`
* `get_bot_logs` — `trading-service/api_server.py`
-/

namespace Alphintra

/-- Python truthiness of an optional rational: `None` and `0` are falsy. -/
def qtruthy (o : Option ℚ) : Bool :=
  match o with
  | none => false
  | some x => x ≠ 0

/-- Python truthiness of an optional integer id: `None` and `0` are falsy. -/
def ntruthy (o : Option ℕ) : Bool :=
  match o with
  | none => false
  | some n => n ≠ 0

/-- Order status values used by `trading_manager.py`. -/
inductive OrderStatus
  | PENDING
  | PARTIALLY_FILLED
  | FILLED
  | CANCELLED
  | FAILED
  deriving DecidableEq, Repr

/-- Order side. -/
inductive Side
  | BUY
  | SELL
  deriving DecidableEq, Repr

/-- An `Order` row: exactly the mapped columns of `bot_models.Order` that
the trading manager reads or writes (`average_price` is NOT among them —
`bot_models.Order` defines no such column). -/
structure Order where
  symbol : String
  side : Side
  price : Option ℚ
  quantity : ℚ
  filled_quantity : Option ℚ
  status : OrderStatus
  deriving DecidableEq, Repr

/-- An in-memory `Order` instance: the row's columns plus the state of the
transient (non-column) attribute `average_price`.  `average_price_attr =
none` means the attribute was never assigned on this instance, so reading
`order.average_price` raises `AttributeError`; `some v` means it was
assigned the Python value `v` (`v = none` models an assigned `None`).
An instance freshly loaded by `db.query(Order)` always has
`average_price_attr = none`, because assignments to a non-column attribute
are never persisted. -/
structure OrderInstance where
  row : Order
  average_price_attr : Option (Option ℚ)
  deriving DecidableEq, Repr

/-- The instance `db.query(Order).filter(...).first()` yields for a stored
row: the columns, with the non-column `average_price` attribute absent. -/
def db_instance (row : Order) : OrderInstance :=
  { row := row, average_price_attr := none }

/-- Python `x or y` on optional floats (`None` and `0.0` are falsy). -/
def py_or (x y : Option ℚ) : Option ℚ :=
  if qtruthy x then x else y

/-- `TradingManager.partial_fill` acting on a found order instance.  Line 82
reads the `filled_quantity` column (`float(... or 0)`); line 83 then reads
`order.average_price`, which is not a column of `bot_models.Order`: on an
instance on which that attribute was never assigned the read raises
`AttributeError`, the `except` branch rolls back and the method returns
`False` with the order untouched.  Were the attribute present, the method
would take `float(order.average_price or order.price)` (Python `or`:
`TypeError`, hence the same except path, if that chain yields `None`),
compute the quantity-weighted average (`ZeroDivisionError`, again the
except path, when the new cumulative quantity is zero), write the new
cumulative fill and status (`FILLED` when `new_filled >= order.quantity`,
else `PARTIALLY_FILLED`) and return `is_complete`. -/
def partial_fill (order : OrderInstance) (filled_quantity filled_price : ℚ) :
    OrderInstance × Bool :=
  match order.average_price_attr with
  | none => (order, false)
  | some avg =>
      let previous_filled : ℚ := (order.row.filled_quantity).getD 0
      match py_or avg order.row.price with
      | none => (order, false)
      | some previous_avg_price =>
          let new_filled : ℚ := previous_filled + filled_quantity
          if new_filled = 0 then (order, false)
          else
            let new_avg_price : ℚ :=
              (previous_filled * previous_avg_price + filled_quantity * filled_price) /
                new_filled
            let is_complete : Bool := new_filled ≥ order.row.quantity
            ({ row := { order.row with
                  filled_quantity := some new_filled
                  status := if is_complete then OrderStatus.FILLED
                    else OrderStatus.PARTIALLY_FILLED }
               average_price_attr := some (some new_avg_price) }, is_complete)

/-- The order update performed by `TradingManager.fill_order`: status
`FILLED`, `filled_quantity := quantity` (column writes), then with a truthy
`filled_price` argument also `price := filled_price` (column write) and
`average_price := filled_price`, else `average_price := order.price` —
both `average_price` assignments only set the transient attribute.
Returns the updated instance and `actual_price = order.average_price`. -/
def fill_order_update (order : OrderInstance) (filled_price : Option ℚ) :
    OrderInstance × Option ℚ :=
  let row := { order.row with
      status := OrderStatus.FILLED
      filled_quantity := some order.row.quantity }
  if qtruthy filled_price then
    ({ row := { row with price := filled_price }
       average_price_attr := some filled_price }, filled_price)
  else
    ({ row := row, average_price_attr := some row.price }, row.price)

/-- `TradingManager.cancel_order` on a found order: sets status `CANCELLED`. -/
def cancel_order (order : Order) : Order :=
  { order with status := OrderStatus.CANCELLED }

/-- The row `TradingManager.create_order` inserts: status `PENDING`, the
`filled_quantity` column at its default `0`. -/
def create_order_row (symbol : String) (side : Side) (quantity : ℚ)
    (price : Option ℚ) : Order :=
  { symbol := symbol
    side := side
    price := price
    quantity := quantity
    filled_quantity := some 0
    status := OrderStatus.PENDING }

/-- One trading-manager operation on a stored order row.  Each method opens
its own session and loads a fresh instance of the row, so the non-column
`average_price` attribute is absent at the start of every operation and
only column writes persist. -/
inductive OrderOp
  | partialFill (fill_qty fill_price : ℚ)
  | fillOrder (filled_price : Option ℚ)
  | cancel
  deriving DecidableEq, Repr

/-- The persisted effect of one operation on the stored row. -/
def apply_op (row : Order) (op : OrderOp) : Order :=
  match op with
  | OrderOp.partialFill fill_qty fill_price =>
      ((partial_fill (db_instance row) fill_qty fill_price).1).row
  | OrderOp.fillOrder filled_price =>
      ((fill_order_update (db_instance row) filled_price).1).row
  | OrderOp.cancel => cancel_order row

/-- The claimed order invariant: cumulative fill never exceeds the
requested quantity. -/
def order_filled_le_quantity (row : Order) : Prop :=
  (row.filled_quantity).getD 0 ≤ row.quantity

/-- A `Position` row (`bot_models.Position`): the fields `_open_position`,
`_close_position` and `_monitor_positions` read and write. -/
structure Position where
  symbol : String
  entry_price : ℚ
  quantity : ℚ
  current_price : ℚ
  stop_loss : Option ℚ
  take_profit : Option ℚ
  unrealized_pnl : Option ℚ
  deriving DecidableEq, Repr

/-- Trade result values. -/
inductive TradeResult
  | PROFIT
  | LOSS
  deriving DecidableEq, Repr

/-- A `TradeHistory` row as inserted by `TradingManager._close_position`. -/
structure TradeHistory where
  symbol : String
  buy_price : ℚ
  sell_price : ℚ
  quantity : ℚ
  pnl : ℚ
  result : TradeResult
  deriving DecidableEq, Repr

/-- `TradingManager._open_position`: `existing` is the position the query
finds for this (execution, symbol), or `none`.  An existing position gets the
quantity-weighted average entry price and summed quantity (its stop-loss,
take-profit and the other fields untouched); otherwise a new position is
created from the fill. -/
def open_position (existing : Option Position) (symbol : String)
    (entry_price quantity : ℚ) (stop_loss take_profit : Option ℚ) : Position :=
  match existing with
  | some position =>
      let total_value := position.entry_price * position.quantity + entry_price * quantity
      let total_quantity := position.quantity + quantity
      { position with
          entry_price := total_value / total_quantity
          quantity := total_quantity }
  | none =>
      { symbol := symbol
        entry_price := entry_price
        quantity := quantity
        current_price := entry_price
        stop_loss := stop_loss
        take_profit := take_profit
        unrealized_pnl := none }

/-- The `TradeHistory` row `TradingManager._close_position` inserts:
`pnl = (exit_price - entry_price) * quantity`, result `PROFIT` iff `pnl > 0`,
else `LOSS`. -/
def close_trade (position : Position) (symbol : String)
    (exit_price quantity : ℚ) : TradeHistory :=
  let pnl := (exit_price - position.entry_price) * quantity
  let result := if pnl > 0 then TradeResult.PROFIT else TradeResult.LOSS
  { symbol := symbol
    buy_price := position.entry_price
    sell_price := exit_price
    quantity := quantity
    pnl := pnl
    result := result }

/-- `TradingManager._close_position`: `existing` is the position the query
finds, or `none` (in which case the method warns and returns with no insert).
Otherwise it inserts the trade row and deletes the position when
`quantity >= position.quantity`, else reduces it by `quantity`. -/
def close_position (existing : Option Position) (symbol : String)
    (exit_price quantity : ℚ) : Option (TradeHistory × Option Position) :=
  match existing with
  | none => none
  | some position =>
      let trade := close_trade position symbol exit_price quantity
      if quantity ≥ position.quantity then
        some (trade, none)
      else
        some (trade, some { position with quantity := position.quantity - quantity })

/-- Signal types of `strategies/base_strategy.py`. -/
inductive SignalType
  | BUY
  | SELL
  | HOLD
  deriving DecidableEq, Repr

/-- A `TradingSignal` (the fields `execute_signal` inspects). -/
structure TradingSignal where
  signal : SignalType
  confidence : ℚ
  entry_price : Option ℚ
  stop_loss : Option ℚ
  take_profit : Option ℚ
  deriving DecidableEq, Repr

/-- `SignalProcessor.min_confidence` (set in `__init__`). -/
def min_confidence : ℚ := 50

/-- `SignalProcessor._should_execute`: `current_position` is the `'side'`
entry of `self.positions.get(symbol, {})`, `none` when no position is
tracked for the symbol.  BUY is skipped when already in a BUY position;
SELL is skipped when no position is tracked or it is already a SELL. -/
def should_execute (current_position : Option Side) (signal : SignalType) : Bool :=
  match signal with
  | SignalType.BUY => !(current_position = some Side.BUY : Bool)
  | SignalType.SELL =>
      if current_position = none then false
      else !(current_position = some Side.SELL : Bool)
  | SignalType.HOLD => true

/-- How far `SignalProcessor.execute_signal` gets before the exchange call. -/
inductive ExecOutcome
  | holdNoAction
  | lowConfidence
  | invalidSize
  | positionSkip
  | placeOrder
  deriving DecidableEq, Repr

/-- The gate sequence of `SignalProcessor.execute_signal`: HOLD returns
`False` at once; then confidence below `min_confidence` returns `False`;
then a non-positive order size returns `False`; then `_should_execute`;
only then is the market order placed (`placeOrder` abstracts the rest). -/
def execute_signal_gate (signal : TradingSignal) (order_size : ℚ)
    (current_position : Option Side) : ExecOutcome :=
  if signal.signal = SignalType.HOLD then ExecOutcome.holdNoAction
  else if signal.confidence < min_confidence then ExecOutcome.lowConfidence
  else if order_size ≤ 0 then ExecOutcome.invalidSize
  else if !(should_execute current_position signal.signal) then ExecOutcome.positionSkip
  else ExecOutcome.placeOrder

/-- What `TradingBot._monitor_positions` does with one open position. -/
inductive MonitorAction
  | stopLossSell
  | takeProfitSell
  | updateOnly
  deriving DecidableEq, Repr

/-- The per-position branch of `TradingBot._monitor_positions`:
`if stop_loss and current_price <= stop_loss` force-sells (reason
"Stop Loss Triggered"); `elif take_profit and current_price >= take_profit`
force-sells (reason "Take Profit Triggered"); else only the price/PnL
update runs. -/
def monitor_position (position : Position) (current_price : ℚ) : MonitorAction :=
  if qtruthy position.stop_loss && decide (current_price ≤ (position.stop_loss).getD 0) then
    MonitorAction.stopLossSell
  else if qtruthy position.take_profit && decide (current_price ≥ (position.take_profit).getD 0) then
    MonitorAction.takeProfitSell
  else
    MonitorAction.updateOnly

/-- The in-place update of the `else` branch of `_monitor_positions`:
`position.current_price = current_price;
position.unrealized_pnl = (current_price - entry_price) * quantity`. -/
def monitor_update (position : Position) (current_price : ℚ) : Position :=
  { position with
      current_price := current_price
      unrealized_pnl := some ((current_price - position.entry_price) * position.quantity) }

/-- `row.get(key, default)` on the last row of the 1h table: the table's
columns for that row are an optional-valued lookup. -/
def series_get (row : String → Option ℚ) (key : String) (default : ℚ) : ℚ :=
  (row key).getD default

/-- The column name under which `TechnicalIndicators.add_atr` stores the
ATR(14) series (`df['atr'] = ta.atr(..., length=period)` with the default
`period = 14`). -/
def atr_column_name : String := "atr"

/-- The stop-loss/take-profit computation of
`BollingerBreakoutStrategy.analyze`: `atr = latest.get("atr_14",
current_price * 0.02)`, then BUY: `(price - 2*atr, price + 3*atr)`,
SELL: `(price + 2*atr, price - 3*atr)`, HOLD: `(None, None)`. -/
def bollinger_levels (row : String → Option ℚ) (signal_type : SignalType)
    (current_price : ℚ) : Option ℚ × Option ℚ :=
  let atr := series_get row "atr_14" (current_price * (2 / 100))
  let stop_loss :=
    if signal_type = SignalType.BUY then some (current_price - 2 * atr)
    else if signal_type = SignalType.SELL then some (current_price + 2 * atr)
    else none
  let take_profit :=
    if signal_type = SignalType.BUY then some (current_price + 3 * atr)
    else if signal_type = SignalType.SELL then some (current_price - 3 * atr)
    else none
  (stop_loss, take_profit)

/-- Result of the wallet service's `normalize_environment`: a normalized
environment string, or an `HTTPException` with status 400. -/
inductive EnvResult
  | ok (env : String)
  | http400
  deriving DecidableEq, Repr

/-- `SUPPORTED_ENVIRONMENTS["production"]`. -/
def production_aliases : List String := ["production", "prod", "mainnet", "live"]

/-- `SUPPORTED_ENVIRONMENTS["testnet"]`. -/
def testnet_aliases : List String := ["testnet", "sandbox", "demo"]

/-- Python `str.lower` on one character (ASCII case mapping, which covers
every input the wallet service compares against). -/
def py_lower_char (c : Char) : Char :=
  if 'A' ≤ c ∧ c ≤ 'Z' then Char.ofNat (c.toNat + 32) else c

/-- Python `str.strip` over the character list: removes leading and
trailing whitespace. -/
def py_strip_list (s : List Char) : List Char :=
  ((s.dropWhile Char.isWhitespace).reverse.dropWhile Char.isWhitespace).reverse

/-- Python `value.strip().lower()`. -/
def py_strip_lower (s : String) : String :=
  String.mk ((py_strip_list s.toList).map py_lower_char)

/-- `wallet-service/main.py::normalize_environment`: falsy input (absent or
empty) defaults to "production"; otherwise the value is stripped and
lowercased and matched against each target and its alias set in insertion
order; anything else raises HTTP 400. -/
def normalize_environment (value : Option String) : EnvResult :=
  match value with
  | none => EnvResult.ok "production"
  | some v =>
      if v = "" then EnvResult.ok "production"
      else
        let normalized := py_strip_lower v
        if normalized = "production" || production_aliases.contains normalized then
          EnvResult.ok "production"
        else if normalized = "testnet" || testnet_aliases.contains normalized then
          EnvResult.ok "testnet"
        else EnvResult.http400

/-- One entry of the in-memory `bot_logs` buffer of `api_server.py`
(the handlers always set the `bot_execution_id` key, possibly to `None`). -/
structure LogEntry where
  timestamp : String
  level : String
  message : String
  bot_execution_id : Option ℕ
  deriving DecidableEq, Repr

/-- `GET /logs` (`api_server.get_bot_logs`): the authenticated caller's id
is resolved by `get_current_user_id`, and the handler returns
`[log for log in bot_logs if log.get("bot_execution_id")]`. -/
def get_bot_logs (bot_logs : List LogEntry) (user_id : ℕ) : List LogEntry :=
  bot_logs.filter (fun log => ntruthy log.bot_execution_id)

/-! ### Concrete fixtures used by witnesses and counterexamples -/

/-- A stored BUY order row for 3 units with 2 units already filled — the
spec's partial-fill example order. -/
def oC1 : Order :=
  { symbol := "BTC/USDT"
    side := Side.BUY
    price := some 100
    quantity := 3
    filled_quantity := some 2
    status := OrderStatus.PARTIALLY_FILLED }

/-- An open position: 1 unit at entry 100, stop-loss 95, take-profit 110. -/
def pX : Position :=
  { symbol := "BTC/USDT"
    entry_price := 100
    quantity := 1
    current_price := 100
    stop_loss := some 95
    take_profit := some 110
    unrealized_pnl := none }

/-! ### Claims -/

/-- C1 (code bug): `bot_models.Order` defines no `average_price` column, so
on every stored order `partial_fill` raises `AttributeError` at the read
`float(order.average_price or order.price)`, rolls back and returns
`False`.  At the spec's example order (3 requested, 2 already filled), a
fill of 1 @ 106 updates nothing: no weighted average 102, the cumulative
fill stays 2 and the status never becomes FILLED — contradicting the claim
and the method's own docstring ("Updates filled_quantity and average_price
incrementally ... Returns: True if order is now completely filled"). -/
theorem partial_fill_attribute_error :
    (db_instance oC1).average_price_attr = none ∧
    partial_fill (db_instance oC1) 1 106 = (db_instance oC1, false) ∧
    ((partial_fill (db_instance oC1) 1 106).1).row.filled_quantity = some 2 ∧
    ((partial_fill (db_instance oC1) 1 106).1).row.status ≠ OrderStatus.FILLED := by
  refine ⟨rfl, rfl, rfl, ?_⟩
  intro h
  exact absurd h (by decide)

/-- One trading-manager operation preserves the fill bound: a partial fill
never mutates the row (every call takes the `AttributeError` path on the
missing `average_price` attribute), a full fill sets the cumulative fill to
exactly the requested quantity, and a cancel only touches the status. -/
theorem apply_op_preserves_filled_le (row : Order) (op : OrderOp)
    (h : order_filled_le_quantity row) :
    order_filled_le_quantity (apply_op row op) := by
  cases op with
  | partialFill fill_qty fill_price => exact h
  | fillOrder filled_price =>
      unfold apply_op fill_order_update order_filled_le_quantity
      by_cases hf : qtruthy filled_price <;> simp [hf, db_instance]
  | cancel => exact h

/-- C2: for every order row created by `create_order` (nonnegative
requested quantity) and every sequence of partial-fill/fill/cancel
operations, `filled_quantity` never exceeds `quantity`: creation starts the
fill at 0, `fill_order` sets it to exactly the requested quantity,
`cancel_order` leaves it unchanged, and `partial_fill` never updates it at
all (every call dies on the `AttributeError` of the missing `average_price`
attribute), so in particular an oversized partial fill leaves
`filled_quantity ≤ quantity`. -/
theorem filled_quantity_never_exceeds (symbol : String) (side : Side)
    (quantity : ℚ) (price : Option ℚ) (hq : 0 ≤ quantity) (ops : List OrderOp) :
    order_filled_le_quantity
      (ops.foldl apply_op (create_order_row symbol side quantity price)) := by
  have h0 : order_filled_le_quantity (create_order_row symbol side quantity price) := by
    simpa [order_filled_le_quantity, create_order_row] using hq
  suffices h : ∀ (l : List OrderOp) (row : Order), order_filled_le_quantity row →
      order_filled_le_quantity (l.foldl apply_op row) by
    exact h ops _ h0
  intro l
  induction l with
  | nil => exact fun row h => h
  | cons op l ih =>
      exact fun row h => ih _ (apply_op_preserves_filled_le row op h)

/-- Witness for C2: an order for 1 unit receives an oversized partial fill
of 2 units — the cumulative fill stays at 0 (the fill never happens), well
within the requested quantity. -/
theorem filled_quantity_never_exceeds_witness :
    order_filled_le_quantity
      ([OrderOp.partialFill 2 100].foldl apply_op
        (create_order_row "BTC/USDT" Side.BUY 1 (some 100))) ∧
    ([OrderOp.partialFill 2 100].foldl apply_op
        (create_order_row "BTC/USDT" Side.BUY 1 (some 100))).filled_quantity = some 0 := by
  exact ⟨filled_quantity_never_exceeds "BTC/USDT" Side.BUY 1 (some 100) (by norm_num)
    [OrderOp.partialFill 2 100], rfl⟩

/-- C3: a BUY fill merged into an existing position for the same
(execution, symbol) recomputes the entry price as the quantity-weighted
average of the old position and the new fill, sums the quantities, and
leaves the stop-loss and take-profit untouched; with no existing position a
new one is created from the fill's price, quantity, stop-loss and
take-profit. -/
theorem open_position_merge_or_create (position : Position) (symbol : String)
    (entry_price quantity : ℚ) (sl tp : Option ℚ) :
    ((open_position (some position) symbol entry_price quantity sl tp).entry_price =
        (position.entry_price * position.quantity + entry_price * quantity) /
          (position.quantity + quantity)) ∧
    ((open_position (some position) symbol entry_price quantity sl tp).quantity =
        position.quantity + quantity) ∧
    ((open_position (some position) symbol entry_price quantity sl tp).stop_loss =
        position.stop_loss) ∧
    ((open_position (some position) symbol entry_price quantity sl tp).take_profit =
        position.take_profit) ∧
    (open_position none symbol entry_price quantity sl tp =
      { symbol := symbol
        entry_price := entry_price
        quantity := quantity
        current_price := entry_price
        stop_loss := sl
        take_profit := tp
        unrealized_pnl := none }) := by
  refine ⟨rfl, rfl, rfl, rfl, rfl⟩

/-- C4: the trade row recorded on a position close has
`pnl = (sell_price - buy_price) * quantity`, result LOSS exactly when
`pnl ≤ 0` and PROFIT exactly when `pnl > 0`; a close at exactly the entry
price is classified LOSS. -/
theorem close_trade_pnl_result (position : Position) (symbol : String)
    (exit_price quantity : ℚ) :
    ((close_position (some position) symbol exit_price quantity).map Prod.fst =
        some (close_trade position symbol exit_price quantity)) ∧
    ((close_trade position symbol exit_price quantity).buy_price =
        position.entry_price) ∧
    ((close_trade position symbol exit_price quantity).sell_price = exit_price) ∧
    ((close_trade position symbol exit_price quantity).pnl =
        ((close_trade position symbol exit_price quantity).sell_price -
          (close_trade position symbol exit_price quantity).buy_price) *
          (close_trade position symbol exit_price quantity).quantity) ∧
    ((close_trade position symbol exit_price quantity).result = TradeResult.LOSS ↔
        (close_trade position symbol exit_price quantity).pnl ≤ 0) ∧
    ((close_trade position symbol exit_price quantity).result = TradeResult.PROFIT ↔
        0 < (close_trade position symbol exit_price quantity).pnl) ∧
    (exit_price = position.entry_price →
        (close_trade position symbol exit_price quantity).result = TradeResult.LOSS) := by
  refine ⟨?_, rfl, rfl, rfl, ?_, ?_, ?_⟩
  · unfold close_position
    by_cases h : quantity ≥ position.quantity <;> simp [h]
  · unfold close_trade
    by_cases h : (exit_price - position.entry_price) * quantity > 0 <;>
      simp [h] <;> linarith
  · unfold close_trade
    by_cases h : (exit_price - position.entry_price) * quantity > 0 <;> simp [h]
  · intro he
    unfold close_trade
    simp [he]

/-- Witness for C4: closing 1 unit bought at entry 100 at exit exactly 100
yields pnl 0 and result LOSS, while exit 100.01 yields result PROFIT. -/
theorem close_trade_pnl_result_witness :
    (close_trade pX "BTC/USDT" 100 1).pnl = 0 ∧
    (close_trade pX "BTC/USDT" 100 1).result = TradeResult.LOSS ∧
    (close_trade pX "BTC/USDT" (10001 / 100) 1).result = TradeResult.PROFIT := by
  have h0 := close_trade_pnl_result pX "BTC/USDT" 100 1
  have h1 := close_trade_pnl_result pX "BTC/USDT" (10001 / 100) 1
  refine ⟨?_, ?_, ?_⟩
  · show ((100 : ℚ) - pX.entry_price) * 1 = 0
    norm_num [pX]
  · exact h0.2.2.2.2.2.2 (by norm_num [pX])
  · refine (h1.2.2.2.2.2.1).mpr ?_
    show (0 : ℚ) < ((10001 / 100 : ℚ) - pX.entry_price) * 1
    norm_num [pX]

/-- A HOLD signal with high confidence. -/
def sigHold : TradingSignal :=
  { signal := SignalType.HOLD
    confidence := 80
    entry_price := some 100
    stop_loss := none
    take_profit := none }

/-- A BUY signal with confidence 49. -/
def sigBuy49 : TradingSignal :=
  { signal := SignalType.BUY
    confidence := 49
    entry_price := some 100
    stop_loss := none
    take_profit := none }

/-- A BUY signal with confidence exactly 50. -/
def sigBuy50 : TradingSignal :=
  { signal := SignalType.BUY
    confidence := 50
    entry_price := some 100
    stop_loss := none
    take_profit := none }

/-- C5: `execute_signal` returns false before reaching the exchange when
the signal is HOLD (`holdNoAction`) or its confidence is strictly below the
minimum 50 (`lowConfidence`); a BUY signal with confidence exactly 50
passes both of these gates, leaving only the order-size and position-aware
gates and the order placement itself. -/
theorem execute_signal_confidence_gates (signal : TradingSignal)
    (order_size : ℚ) (current_position : Option Side) :
    (signal.signal = SignalType.HOLD →
        execute_signal_gate signal order_size current_position =
          ExecOutcome.holdNoAction) ∧
    (signal.signal ≠ SignalType.HOLD → signal.confidence < min_confidence →
        execute_signal_gate signal order_size current_position =
          ExecOutcome.lowConfidence) ∧
    (signal.signal = SignalType.BUY → signal.confidence = 50 →
        execute_signal_gate signal order_size current_position ≠
          ExecOutcome.holdNoAction ∧
        execute_signal_gate signal order_size current_position ≠
          ExecOutcome.lowConfidence) := by
  refine ⟨?_, ?_, ?_⟩
  · intro hh
    simp [execute_signal_gate, hh]
  · intro hh hc
    simp [execute_signal_gate, hh, hc]
  · intro hb hc
    have hnh : ¬ signal.signal = SignalType.HOLD := by rw [hb]; exact fun h => nomatch h
    have hnc : ¬ signal.confidence < min_confidence := by
      rw [hc]; norm_num [min_confidence]
    constructor <;>
    · simp only [execute_signal_gate, if_neg hnh, if_neg hnc]
      by_cases hs : order_size ≤ 0 <;>
        by_cases hp : (should_execute current_position signal.signal : Bool) <;>
        simp [hs, hp]

/-- Witness for C5: a HOLD signal and a BUY at confidence 49 are rejected
before any order; a BUY at confidence exactly 50 passes the HOLD and
confidence gates. -/
theorem execute_signal_confidence_gates_witness :
    execute_signal_gate sigHold 1 none = ExecOutcome.holdNoAction ∧
    execute_signal_gate sigBuy49 1 none = ExecOutcome.lowConfidence ∧
    execute_signal_gate sigBuy50 1 none ≠ ExecOutcome.holdNoAction ∧
    execute_signal_gate sigBuy50 1 none ≠ ExecOutcome.lowConfidence := by
  have h1 := (execute_signal_confidence_gates sigHold 1 none).1 rfl
  have h2 := (execute_signal_confidence_gates sigBuy49 1 none).2.1
    (by decide) (by norm_num [sigBuy49, min_confidence])
  have h3 := (execute_signal_confidence_gates sigBuy50 1 none).2.2
    rfl (by norm_num [sigBuy50])
  exact ⟨h1, h2, h3.1, h3.2⟩

/-- C6: for an open position whose stop-loss and take-profit are set
(truthy), the monitor force-sells via the stop-loss branch exactly when the
current price is ≤ the stop-loss, otherwise via the take-profit branch
exactly when the current price is ≥ the take-profit, and otherwise only
updates the position's current price and unrealized PnL in place. -/
theorem monitor_position_triggers (position : Position) (current_price sl tp : ℚ)
    (hsl : position.stop_loss = some sl) (hsl0 : sl ≠ 0)
    (htp : position.take_profit = some tp) (htp0 : tp ≠ 0) :
    (monitor_position position current_price = MonitorAction.stopLossSell ↔
        current_price ≤ sl) ∧
    (monitor_position position current_price = MonitorAction.takeProfitSell ↔
        (sl < current_price ∧ tp ≤ current_price)) ∧
    (monitor_position position current_price = MonitorAction.updateOnly ↔
        (sl < current_price ∧ current_price < tp)) ∧
    (monitor_update position current_price =
      { position with
          current_price := current_price
          unrealized_pnl :=
            some ((current_price - position.entry_price) * position.quantity) }) := by
  have hchar : monitor_position position current_price =
      if current_price ≤ sl then MonitorAction.stopLossSell
      else if tp ≤ current_price then MonitorAction.takeProfitSell
      else MonitorAction.updateOnly := by
    simp only [monitor_position, qtruthy, hsl, htp, Option.getD_some, ge_iff_le]
    by_cases hle : current_price ≤ sl <;> by_cases hge : tp ≤ current_price <;>
      simp [hle, hge, hsl0, htp0]
  refine ⟨?_, ?_, ?_, rfl⟩ <;> rw [hchar]
  · split_ifs with hle hge
    · exact iff_of_true rfl hle
    · exact iff_of_false (by simp) hle
    · exact iff_of_false (by simp) hle
  · split_ifs with hle hge
    · exact iff_of_false (by simp)
        (fun h => absurd hle (not_le.mpr h.1))
    · exact iff_of_true rfl ⟨not_le.mp hle, hge⟩
    · exact iff_of_false (by simp) (fun h => hge h.2)
  · split_ifs with hle hge
    · exact iff_of_false (by simp)
        (fun h => absurd hle (not_le.mpr h.1))
    · exact iff_of_false (by simp)
        (fun h => absurd hge (not_le.mpr h.2))
    · exact iff_of_true rfl ⟨not_le.mp hle, not_le.mp hge⟩

/-- Witness for C6 at the spec's example levels (stop 95, target 110,
entry 100): a price of exactly 95 triggers the stop-loss sell, 95.01 does
not; exactly 110 triggers the take-profit sell, 109.99 does not. -/
theorem monitor_position_triggers_witness :
    monitor_position pX 95 = MonitorAction.stopLossSell ∧
    monitor_position pX (9501 / 100) ≠ MonitorAction.stopLossSell ∧
    monitor_position pX 110 = MonitorAction.takeProfitSell ∧
    monitor_position pX (10999 / 100) = MonitorAction.updateOnly := by
  have h95 := monitor_position_triggers pX 95 95 110 rfl (by norm_num) rfl (by norm_num)
  have h9501 := monitor_position_triggers pX (9501 / 100) 95 110 rfl (by norm_num) rfl
    (by norm_num)
  have h110 := monitor_position_triggers pX 110 95 110 rfl (by norm_num) rfl (by norm_num)
  have h10999 := monitor_position_triggers pX (10999 / 100) 95 110 rfl (by norm_num) rfl
    (by norm_num)
  refine ⟨h95.1.mpr (by norm_num), ?_, h110.2.1.mpr (by norm_num), ?_⟩
  · intro h
    have := h9501.1.mp h
    norm_num at this
  · exact h10999.2.2.1.mpr (by norm_num)

/-- The last row of an indicator-augmented 1h table whose computed ATR(14)
value is 5: the indicator pipeline stores it under the column name `atr`
(`add_atr`), and no `atr_14` column exists anywhere in the pipeline. -/
def atr_row : String → Option ℚ :=
  fun key => if key = "atr" then some 5 else none

/-- C7 (code bug): `BollingerBreakoutStrategy.analyze` looks the ATR up
under the key `atr_14`, but the indicator pipeline stores it under `atr`,
so the lookup always misses and the 2%-of-price default is always used: on
a row whose computed ATR is 5 at price 100, a BUY carries stop 96 and
target 106 (from the default ATR 2) instead of the claimed
`100 - 2*5 = 90` and `100 + 3*5 = 115`. -/
theorem bollinger_atr_key_mismatch :
    atr_row atr_column_name = some 5 ∧
    atr_row "atr_14" = none ∧
    bollinger_levels atr_row SignalType.BUY 100 = (some 96, some 106) ∧
    bollinger_levels atr_row SignalType.BUY 100 ≠
      (some (100 - 2 * 5), some (100 + 3 * 5)) := by
  have hrow : atr_row "atr_14" = none := by simp [atr_row]
  have heval : bollinger_levels atr_row SignalType.BUY 100 = (some 96, some 106) := by
    simp only [bollinger_levels, series_get, hrow, Option.getD_none]
    norm_num
  refine ⟨rfl, hrow, heval, ?_⟩
  rw [heval]
  intro h
  have := congrArg Prod.fst h
  simp only [Option.some.injEq] at this
  norm_num at this

/-- C8: the wallet service's environment normalization strips and
lowercases its input, maps every production alias to "production" and every
testnet alias to "testnet" (witnessed on "PROD", " Live ", "mainnet",
"Sandbox", "DEMO"), and rejects every other non-empty value with HTTP 400. -/
theorem normalize_environment_spec (v : String) :
    (normalize_environment (some "PROD") = EnvResult.ok "production") ∧
    (normalize_environment (some " Live ") = EnvResult.ok "production") ∧
    (normalize_environment (some "mainnet") = EnvResult.ok "production") ∧
    (normalize_environment (some "Sandbox") = EnvResult.ok "testnet") ∧
    (normalize_environment (some "DEMO") = EnvResult.ok "testnet") ∧
    (py_strip_lower v ∈ production_aliases →
        normalize_environment (some v) = EnvResult.ok "production") ∧
    (py_strip_lower v ∈ testnet_aliases →
        normalize_environment (some v) = EnvResult.ok "testnet") ∧
    (v ≠ "" → py_strip_lower v ∉ production_aliases →
        py_strip_lower v ∉ testnet_aliases →
        normalize_environment (some v) = EnvResult.http400) := by
  refine ⟨by decide, by decide, by decide, by decide, by decide, ?_, ?_, ?_⟩
  · intro hmem
    have hv : ¬ v = "" := by
      intro he
      rw [he] at hmem
      revert hmem
      decide
    simp only [production_aliases, List.mem_cons, List.not_mem_nil, or_false] at hmem
    simp only [normalize_environment, if_neg hv]
    rcases hmem with h | h | h | h <;> rw [h] <;> decide
  · intro hmem
    have hv : ¬ v = "" := by
      intro he
      rw [he] at hmem
      revert hmem
      decide
    simp only [testnet_aliases, List.mem_cons, List.not_mem_nil, or_false] at hmem
    simp only [normalize_environment, if_neg hv]
    rcases hmem with h | h | h <;> rw [h] <;> decide
  · intro hv hp ht
    have hcp : production_aliases.contains (py_strip_lower v) = false := by
      rw [List.contains, List.elem_eq_mem]
      simpa using hp
    have hct : testnet_aliases.contains (py_strip_lower v) = false := by
      rw [List.contains, List.elem_eq_mem]
      simpa using ht
    have hne1 : ¬ py_strip_lower v = "production" := by
      intro he
      exact hp (he ▸ (by decide : ("production" : String) ∈ production_aliases))
    have hne2 : ¬ py_strip_lower v = "testnet" := by
      intro he
      exact ht (he ▸ (by decide : ("testnet" : String) ∈ testnet_aliases))
    simp only [normalize_environment, if_neg hv]
    simp only [List.contains, hne1, hne2, hcp, hct, Bool.or_self, Bool.false_or,
      decide_eq_true_eq, if_false, decide_False, Bool.or_false]
    simp

/-- Witness for C8: "staging" is non-empty, normalizes to itself, belongs
to neither alias set, and is rejected with HTTP 400. -/
theorem normalize_environment_spec_witness :
    normalize_environment (some "staging") = EnvResult.http400 := by
  exact (normalize_environment_spec "staging").2.2.2.2.2.2.2
    (by decide) (by decide) (by decide)

/-- C9: `GET /logs` returns exactly the buffered entries whose
`bot_execution_id` is set (truthy), and the returned list is the same for
any two authenticated callers — the handler never consults the requesting
user's identity, so one user observes another user's bot-run log lines. -/
theorem get_bot_logs_user_independent (bot_logs : List LogEntry) (u1 u2 : ℕ) :
    (get_bot_logs bot_logs u1 =
        bot_logs.filter (fun log => ntruthy log.bot_execution_id)) ∧
    (∀ log, log ∈ get_bot_logs bot_logs u1 ↔
        (log ∈ bot_logs ∧ ntruthy log.bot_execution_id = true)) ∧
    (get_bot_logs bot_logs u1 = get_bot_logs bot_logs u2) := by
  refine ⟨rfl, ?_, rfl⟩
  intro log
  simp [get_bot_logs, List.mem_filter]

/-- C10: a SELL fill strictly larger than the open position still records a
trade row whose quantity and pnl use the full oversized quantity —
`pnl = (exit - entry) * quantity` with the requested `quantity` — and then
deletes the position. -/
theorem close_position_oversized (position : Position) (symbol : String)
    (exit_price quantity : ℚ) (h : position.quantity < quantity) :
    close_position (some position) symbol exit_price quantity =
      some ({ symbol := symbol
              buy_price := position.entry_price
              sell_price := exit_price
              quantity := quantity
              pnl := (exit_price - position.entry_price) * quantity
              result := if 0 < (exit_price - position.entry_price) * quantity
                then TradeResult.PROFIT else TradeResult.LOSS }, none) := by
  simp only [close_position, close_trade, ge_iff_le, if_pos h.le, gt_iff_lt]

/-- Witness for C10: a position holding 1 unit at entry 100, closed by a
SELL of 2 units at 120, records quantity 2 and pnl 40 (not 20) and the
position is deleted. -/
theorem close_position_oversized_witness :
    close_position (some pX) "BTC/USDT" 120 2 =
      some ({ symbol := "BTC/USDT"
              buy_price := 100
              sell_price := 120
              quantity := 2
              pnl := 40
              result := TradeResult.PROFIT }, none) := by
  have h := close_position_oversized pX "BTC/USDT" 120 2 (by norm_num [pX])
  rw [h]
  norm_num [pX]

end Alphintra
